import Mathlib

/-!
Shallow embedding of the politics.news RSS terminal reader.

The repository has two entry points built over the same data model:
a served mode (src/main.go, an SSH-served bubbletea session) and a
local mode (src/unnamed/part_000, a plain terminal bubbletea program).
External collaborators (the bubbles list widget, lipgloss styles,
glamour markdown rendering, the HTTP client and encoding/xml) are
modelled as black-box parameters gathered in an environment record,
so the transition and render logic translated here is exactly the
branching logic of the repository code.
-/

namespace PoliticsNews

/-- One parsed RSS item; mirrors type RSSItem in src/main.go lines 178-185. -/
structure RSSItem where
  Title : String
  Link : String
  Description : String
  Id : String
  PublishDate : String
  Creator : String
deriving DecidableEq, Repr

/-- The parsed channel; mirrors type RSSFeed in src/main.go lines 170-176. -/
structure RSSFeed where
  Title : String
  Link : String
  Description : String
  LastBuildDate : String
  Items : List RSSItem
deriving DecidableEq, Repr

/-- Root wrapper; mirrors type RSS in src/main.go lines 166-168. -/
structure RSS where
  Channel : RSSFeed
deriving DecidableEq, Repr

/-- The zero value RSSFeed that Go returns alongside every error. -/
def emptyRSSFeed : RSSFeed :=
  { Title := "", Link := "", Description := "", LastBuildDate := "", Items := [] }

/-- The list view model; mirrors type rssListItem in src/main.go lines 86-90. -/
structure RssListItem where
  title : String
  desc : String
  link : String
deriving DecidableEq, Repr

/-- Interface method Title of rssListItem, src/main.go line 92. -/
def RssListItem.titleMethod (r : RssListItem) : String := r.title

/-- Interface method Description of rssListItem, src/main.go line 93. -/
def RssListItem.descriptionMethod (r : RssListItem) : String := r.desc

/-- Interface method FilterValue of rssListItem, src/main.go line 94. -/
def RssListItem.filterValue (r : RssListItem) : String := r.title

/-- The zero value rssListItem. -/
def emptyRssListItem : RssListItem := { title := "", desc := "", link := "" }

/-- Abstraction of the external bubbles list.Model: the ordered entries it
was constructed with, its highlight index, its Title and its size. The
widget itself is a black box; only the operations the repository code
calls on it are modelled. -/
structure ListModel where
  items : List RssListItem
  index : Nat
  title : String
  width : Int
  height : Int
deriving DecidableEq, Repr

/-- The zero value list.Model, as held by the zero value of model. -/
def zeroListModel : ListModel :=
  { items := [], index := 0, title := "", width := 0, height := 0 }

/-- list.SelectedItem of the bubbles widget: the highlighted entry, or
none when the index is out of range (in particular on an empty list).
The Go type assertion to rssListItem succeeds exactly when this lookup
yields an entry, since only rssListItem values are ever inserted. -/
def ListModel.selectedItem (l : ListModel) : Option RssListItem :=
  l.items.get? l.index

/-- list.SetSize of the bubbles widget (black box; only the stored
dimensions are observable to the repository code). -/
def ListModel.setSize (l : ListModel) (w h : Int) : ListModel :=
  { l with width := w, height := h }

/-- list.New of the bubbles widget as called in the entry points:
fresh widget over the given entries with the given dimensions. -/
def listNew (items : List RssListItem) (w h : Int) : ListModel :=
  { items := items, index := 0, title := "List", width := w, height := h }

/-- tea.Msg restricted to the shapes the Update functions branch on:
a key press, a window resize, or any other message (delegated). -/
inductive Msg where
  | key (s : String)
  | windowSize (width : Int) (height : Int)
  | other (tag : Nat)
deriving DecidableEq, Repr

/-- tea.Cmd values observable in the transition logic: tea.Quit, or an
opaque command returned by the black-box list widget update. -/
inductive TeaCmd where
  | quit
  | listCmd (tag : Nat)
deriving DecidableEq, Repr

/-- The model; mirrors type model in src/main.go lines 96-100. -/
structure Model where
  list : ListModel
  showDetail : Bool
  selected : RssListItem
deriving DecidableEq, Repr

/-- The zero value model returned by teaHandler on fetch failure. -/
def zeroModel : Model :=
  { list := zeroListModel, showDetail := false, selected := emptyRssListItem }

/-- Black-box collaborators of the model: the list widget update and
view, the glamour renderer (fallible), the two lipgloss styles as
rendering functions, and docStyle.GetFrameSize. -/
structure Env where
  listUpdate : ListModel → Msg → ListModel × Option TeaCmd
  listView : ListModel → String
  glamourRender : String → String → Except String String
  docRender : String → String
  modalRender : String → String
  frameW : Int
  frameH : Int

/-- The full observable outcome of one Update step: the next model, the
returned tea.Cmd, and the URL of the fire-and-forget browser launch
spawned by the o branch (none when no launch is spawned). -/
structure UpdateResult where
  model : Model
  cmd : Option TeaCmd
  browse : Option String
deriving DecidableEq, Repr

/-- model.Update of the served mode, src/main.go lines 106-135. The
quit branch fires on ctrl+c and on q; enter captures the highlighted
entry when the type assertion succeeds; esc clears the flag; o spawns
the browser launch when the detail view is open; everything else,
including resizes after SetSize, is delegated to the list widget. -/
def Model.update (env : Env) (m : Model) (msg : Msg) : UpdateResult :=
  match msg with
  | Msg.key s =>
    if s = "ctrl+c" ∨ s = "q" then
      { model := m, cmd := some TeaCmd.quit, browse := none }
    else if s = "enter" then
      match m.list.selectedItem with
      | some item =>
          { model := { m with showDetail := true, selected := item },
            cmd := none, browse := none }
      | none => { model := m, cmd := none, browse := none }
    else if s = "esc" then
      { model := { m with showDetail := false }, cmd := none, browse := none }
    else if s = "o" then
      if m.showDetail then
        { model := m, cmd := none, browse := some m.selected.link }
      else
        { model := m, cmd := none, browse := none }
    else
      let r := env.listUpdate m.list msg
      { model := { m with list := r.1 }, cmd := r.2, browse := none }
  | Msg.windowSize w h =>
      let resized := m.list.setSize (w - env.frameW) (h - env.frameH)
      let r := env.listUpdate resized msg
      { model := { m with list := r.1 }, cmd := r.2, browse := none }
  | Msg.other _ =>
      let r := env.listUpdate m.list msg
      { model := { m with list := r.1 }, cmd := r.2, browse := none }

/-- model.Update of the local mode, src/unnamed/part_000 lines 122-154.
Identical to the served mode except that only ctrl+c is handled as
quit at the model level; q falls through to the list widget. -/
def Model.updateLocal (env : Env) (m : Model) (msg : Msg) : UpdateResult :=
  match msg with
  | Msg.key s =>
    if s = "ctrl+c" then
      { model := m, cmd := some TeaCmd.quit, browse := none }
    else if s = "enter" then
      match m.list.selectedItem with
      | some item =>
          { model := { m with showDetail := true, selected := item },
            cmd := none, browse := none }
      | none => { model := m, cmd := none, browse := none }
    else if s = "esc" then
      { model := { m with showDetail := false }, cmd := none, browse := none }
    else if s = "o" then
      if m.showDetail then
        { model := m, cmd := none, browse := some m.selected.link }
      else
        { model := m, cmd := none, browse := none }
    else
      let r := env.listUpdate m.list msg
      { model := { m with list := r.1 }, cmd := r.2, browse := none }
  | Msg.windowSize w h =>
      let resized := m.list.setSize (w - env.frameW) (h - env.frameH)
      let r := env.listUpdate resized msg
      { model := { m with list := r.1 }, cmd := r.2, browse := none }
  | Msg.other _ =>
      let r := env.listUpdate m.list msg
      { model := { m with list := r.1 }, cmd := r.2, browse := none }

/-- The markdown document built by fmt.Sprintf inside View,
src/main.go lines 141-144. -/
def mkDetailMarkdown (sel : RssListItem) : String :=
  "# " ++ sel.title ++ "\n\n" ++ sel.desc ++ "\n\n[Source](" ++ sel.link ++
    ")\n\n*Press 'o' to open in browser, press Esc to go back.*"

/-- The rendered frame plus whether a render failure was logged (the
Go code logs and falls back; the log is a side channel, not part of
the returned string). -/
structure ViewResult where
  output : String
  renderFailed : Bool
deriving DecidableEq, Repr

/-- model.View of the served mode, src/main.go lines 137-154. -/
def Model.view (env : Env) (m : Model) : ViewResult :=
  let listView := env.docRender (env.listView m.list)
  if m.showDetail then
    match env.glamourRender (mkDetailMarkdown m.selected) "dark" with
    | Except.error _ => { output := listView, renderFailed := true }
    | Except.ok out =>
        { output := listView ++ "\n\n" ++ env.modalRender out,
          renderFailed := false }
  else
    { output := listView, renderFailed := false }

/-- model.View of the local mode, src/unnamed/part_000 lines 156-173.
Same logic; only the logging call differs in the source. -/
def Model.viewLocal (env : Env) (m : Model) : ViewResult :=
  let listView := env.docRender (env.listView m.list)
  if m.showDetail then
    match env.glamourRender (mkDetailMarkdown m.selected) "dark" with
    | Except.error _ => { output := listView, renderFailed := true }
    | Except.ok out =>
        { output := listView ++ "\n\n" ++ env.modalRender out,
          renderFailed := false }
  else
    { output := listView, renderFailed := false }

/-- toListItems, src/main.go lines 156-162: the item adapter. -/
def toListItems (items : List RSSItem) : List RssListItem :=
  items.map fun item =>
    { title := item.Title, desc := item.Description, link := item.Link }

/-- teaHandler, src/main.go lines 37-49, with the per-connection feed
fetch abstracted as its result. On failure it logs and hands the
connection the zero model; on success it builds the list from the
adapted items at the pty dimensions and sets the feed title. -/
def teaHandler (fetch : Except String RSSFeed) (ptyW ptyH : Int) : Model :=
  match fetch with
  | Except.error _ => zeroModel
  | Except.ok feed =>
      let base := listNew (toListItems feed.Items) ptyW ptyH
      { list := { base with title := feed.Title },
        showDetail := false, selected := emptyRssListItem }

/-- The spawned process request resolved by openBrowser. -/
structure SpawnCmd where
  cmd : String
  args : List String
deriving DecidableEq, Repr

/-- Failure modes of openBrowser: the unsupported platform error, or a
failure of exec.Command(...).Start() on a recognized platform. -/
inductive BrowserError where
  | unsupportedPlatform
  | startFailed (msg : String)
deriving DecidableEq, Repr

/-- openBrowser, src/main.go lines 214-230, with runtime.GOOS and the
process start as parameters. Returns none on a successful start. -/
def openBrowser (goos : String) (start : SpawnCmd → Option String)
    (url : String) : Option BrowserError :=
  if goos = "linux" then
    (start { cmd := "xdg-open", args := [url] }).map BrowserError.startFailed
  else if goos = "windows" then
    (start { cmd := "rundll32",
             args := ["url.dll,FileProtocolHandler", url] }).map
      BrowserError.startFailed
  else if goos = "darwin" then
    (start { cmd := "open", args := [url] }).map BrowserError.startFailed
  else
    some BrowserError.unsupportedPlatform

/-- Modelled from the spec: the repository delegates XML deserialization
to the external encoding/xml package, which is not part of src/. The
token shapes of the spec section 4.2 document model: opening tags,
closing tags and character data. -/
inductive XTok where
  | openTag (name : String)
  | closeTag (name : String)
  | text (s : String)
deriving DecidableEq, Repr

/-- The element name inside a tag: the characters before any attribute. -/
def tagName (inside : List Char) : String :=
  String.mk (inside.takeWhile fun c => c ≠ ' ' ∧ c ≠ '\t' ∧ c ≠ '\n' ∧ c ≠ '\r')

/-- Modelled from the spec: fuel-indexed XML tokenizer standing in for
the lexical layer of encoding/xml. A tag that is never terminated by a
closing angle bracket is a malformed document; processing instructions
and declarations are skipped; self-closing tags emit an open and a
close token. Every step consumes at least one character, so fuel equal
to the input length plus one is always sufficient. -/
def tokenizeAux : Nat → List Char → Except String (List XTok)
  | 0, _ => Except.error "malformed XML: tokenizer fuel exhausted"
  | _ + 1, [] => Except.ok []
  | fuel + 1, '<' :: rest =>
      let inside := rest.takeWhile fun c => c ≠ '>'
      let rest2 := rest.dropWhile fun c => c ≠ '>'
      match rest2 with
      | [] => Except.error "malformed XML: tag not terminated"
      | _ :: after =>
          match inside with
          | [] => Except.error "malformed XML: empty tag"
          | '/' :: nm =>
              (tokenizeAux fuel after).map fun toks =>
                XTok.closeTag (tagName nm) :: toks
          | '?' :: _ => tokenizeAux fuel after
          | '!' :: _ => tokenizeAux fuel after
          | _ =>
              if inside.getLast? = some '/' then
                (tokenizeAux fuel after).map fun toks =>
                  XTok.openTag (tagName inside.dropLast) ::
                    XTok.closeTag (tagName inside.dropLast) :: toks
              else
                (tokenizeAux fuel after).map fun toks =>
                  XTok.openTag (tagName inside) :: toks
  | fuel + 1, cs =>
      let txt := cs.takeWhile fun c => c ≠ '<'
      let rest := cs.dropWhile fun c => c ≠ '<'
      (tokenizeAux fuel rest).map fun toks => XTok.text (String.mk txt) :: toks

/-- Modelled from the spec: the non-strict XML document tree of
section 4.2. -/
inductive XNode where
  | elem (name : String) (children : List XNode)
  | text (s : String)

/-- Modelled from the spec: well-formedness checker and tree builder.
The stack holds the open elements with their children accumulated in
reverse; a document that ends with a non-empty stack has an unclosed
tag and is rejected, as is a closing tag that does not match the
innermost open element. -/
def buildAux : List XTok → List (String × List XNode) → List XNode →
    Except String (List XNode)
  | [], [], tops => Except.ok tops.reverse
  | [], _ :: _, _ => Except.error "malformed XML: unclosed tag"
  | XTok.openTag n :: toks, stack, tops =>
      buildAux toks ((n, []) :: stack) tops
  | XTok.closeTag n :: _, [], _ =>
      Except.error ("malformed XML: unexpected closing tag " ++ n)
  | XTok.closeTag n :: toks, (m, kids) :: stack, tops =>
      if n = m then
        match stack with
        | [] => buildAux toks [] (XNode.elem m kids.reverse :: tops)
        | (m2, k2) :: rest =>
            buildAux toks ((m2, XNode.elem m kids.reverse :: k2) :: rest) tops
      else Except.error "malformed XML: mismatched closing tag"
  | XTok.text s :: toks, [], tops => buildAux toks [] (XNode.text s :: tops)
  | XTok.text s :: toks, (m, kids) :: stack, tops =>
      buildAux toks ((m, XNode.text s :: kids) :: stack) tops

/-- The first element node of a node list, skipping character data. -/
def firstElem : List XNode → Option XNode
  | [] => none
  | XNode.elem n cs :: _ => some (XNode.elem n cs)
  | XNode.text _ :: rest => firstElem rest

/-- Modelled from the spec: parse a byte sequence as a well-formed XML
document with a single root element, failing on any malformed input. -/
def parseXML (data : String) : Except String XNode :=
  match tokenizeAux (data.length + 1) data.toList with
  | Except.error e => Except.error e
  | Except.ok toks =>
      match buildAux toks [] [] with
      | Except.error e => Except.error e
      | Except.ok tops =>
          match firstElem tops with
          | some root => Except.ok root
          | none => Except.error "malformed XML: no root element"

/-- Concatenated direct character data of a child list. -/
def directText : List XNode → String
  | [] => ""
  | XNode.text s :: rest => s ++ directText rest
  | XNode.elem _ _ :: rest => directText rest

/-- The character data of a node, as decoded into a scalar field. -/
def XNode.textContent : XNode → String
  | XNode.text s => s
  | XNode.elem _ children => directText children

/-- The child list of a node. -/
def XNode.childrenOf : XNode → List XNode
  | XNode.elem _ children => children
  | XNode.text _ => []

/-- The first child element with the given tag, if any. -/
def childNamed (tag : String) : List XNode → Option XNode
  | [] => none
  | XNode.elem n cs :: rest =>
      if n = tag then some (XNode.elem n cs) else childNamed tag rest
  | XNode.text _ :: rest => childNamed tag rest

/-- All child elements with the given tag, in document order. -/
def childrenNamed (tag : String) : List XNode → List XNode
  | [] => []
  | XNode.elem n cs :: rest =>
      if n = tag then XNode.elem n cs :: childrenNamed tag rest
      else childrenNamed tag rest
  | XNode.text _ :: rest => childrenNamed tag rest

/-- Modelled from the spec: a scalar field decodes to the character
data of the matching child element, and a missing optional scalar
field simply decodes to empty text rather than causing failure. -/
def fieldText (children : List XNode) (tag : String) : String :=
  match childNamed tag children with
  | some n => XNode.textContent n
  | none => ""

/-- Modelled from the spec: decoding of one item element into RSSItem
following the xml struct tags of src/main.go lines 178-185. -/
def decodeItem (n : XNode) : RSSItem :=
  let cs := XNode.childrenOf n
  { Title := fieldText cs "title", Link := fieldText cs "link",
    Description := fieldText cs "description", Id := fieldText cs "guid",
    PublishDate := fieldText cs "pubDate",
    Creator := fieldText cs "dc:creator" }

/-- Modelled from the spec: decoding of the document into RSS and
projection to its channel, following the xml struct tags of
src/main.go lines 166-176. A document without a channel element
decodes to the zero value feed, as the non-strict schema ignores
unknown elements. -/
def decodeFeed (root : XNode) : RSSFeed :=
  match childNamed "channel" (XNode.childrenOf root) with
  | none => emptyRSSFeed
  | some ch =>
      let cs := XNode.childrenOf ch
      { Title := fieldText cs "title", Link := fieldText cs "link",
        Description := fieldText cs "description",
        LastBuildDate := fieldText cs "lastBuildDate",
        Items := (childrenNamed "item" cs).map decodeItem }

/-- The parsing tail of scrapeUrlFeed, src/main.go lines 198-202: on
an unmarshal error return the zero value feed with the error, else
return the decoded channel with no error. -/
def parseFeedBytes (data : String) : RSSFeed × Option String :=
  match parseXML data with
  | Except.error e => (emptyRSSFeed, some e)
  | Except.ok root => (decodeFeed root, none)

/-- scrapeUrlFeed, src/main.go lines 187-203, with the HTTP transport
abstracted as the get parameter returning either the response body or
a transport error. -/
def scrapeUrlFeed (get : String → Except String String) (url : String) :
    RSSFeed × Option String :=
  match get url with
  | Except.error e => (emptyRSSFeed, some e)
  | Except.ok data => parseFeedBytes data

/-- A concrete environment with trivial black boxes, used to instantiate
universally quantified theorems on concrete inputs. -/
def idEnv : Env :=
  { listUpdate := fun l _ => (l, none), listView := fun _ => "L",
    glamourRender := fun _ _ => Except.ok "R", docRender := id,
    modalRender := id, frameW := 0, frameH := 0 }

/-- A concrete list entry. -/
def sampleItem : RssListItem := { title := "A", desc := "dA", link := "http://a" }

/-- A concrete session in the Listing state with one entry highlighted. -/
def sampleListing : Model :=
  { list := { items := [sampleItem], index := 0, title := "Feed",
              width := 10, height := 10 },
    showDetail := false, selected := emptyRssListItem }

/-- The same session after activating the selection. -/
def sampleDetail : Model :=
  { sampleListing with showDetail := true, selected := sampleItem }

/-- A session observably equal to sampleListing but holding a different
stale selection behind the closed detail view. -/
def sampleListingAlt : Model := { sampleListing with selected := sampleItem }

/-- Observable equivalence of two models: same list widget state, same
detail flag, and equal selected entries whenever the detail view is
open. Two models related this way may differ only in a selection that
lies behind a closed detail view, so the selection is part of the
observable session state exactly when the detail view is open. -/
def obsEquiv (m m' : Model) : Prop :=
  m.list = m'.list ∧ m.showDetail = m'.showDetail ∧
    (m.showDetail = true → m.selected = m'.selected)

theorem obsEquiv_closed (l : ListModel) (s s' : RssListItem) :
    obsEquiv { list := l, showDetail := false, selected := s }
      { list := l, showDetail := false, selected := s' } :=
  ⟨rfl, rfl, fun hh => Bool.noConfusion hh⟩

theorem obsEquiv_refl (m : Model) : obsEquiv m m :=
  ⟨rfl, rfl, fun _ => rfl⟩

/-- C1: the selected entry is meaningful exactly when the detail view
is open. Models that agree on everything except a selection hidden
behind a closed detail view render identically and stay observably
equivalent under every event with the same commands and browser
launches, and after the dismiss event the detail flag is false, so the
stale selection is no longer accessible. -/
theorem selected_meaningful_iff_detail (env : Env) (m m' : Model) (msg : Msg)
    (h : obsEquiv m m') :
    Model.view env m = Model.view env m' ∧
    obsEquiv (Model.update env m msg).model (Model.update env m' msg).model ∧
    (Model.update env m msg).cmd = (Model.update env m' msg).cmd ∧
    (Model.update env m msg).browse = (Model.update env m' msg).browse ∧
    (Model.update env m (Msg.key "esc")).model.showDetail = false := by
  obtain ⟨l, d, sel⟩ := m
  obtain ⟨l', d', sel'⟩ := m'
  obtain ⟨hl, hd, hs⟩ := h
  simp only at hl hd hs
  subst hl
  subst hd
  cases d with
  | true =>
      have hsel : sel = sel' := hs rfl
      subst hsel
      exact ⟨rfl, obsEquiv_refl _, rfl, rfl, by simp [Model.update]⟩
  | false =>
      refine ⟨by simp [Model.view], ?_, ?_, ?_, by simp [Model.update]⟩ <;>
        cases msg with
        | key s =>
            by_cases h1 : s = "ctrl+c" ∨ s = "q"
            · simp [Model.update, h1] <;>
                first
                | exact obsEquiv_closed _ sel sel'
                | exact obsEquiv_refl _
            · by_cases h2 : s = "enter"
              · cases hsel : ListModel.selectedItem l with
                | some item =>
                    simp [Model.update, h1, h2, hsel] <;>
                      first
                      | exact obsEquiv_closed _ sel sel'
                      | exact obsEquiv_refl _
                | none =>
                    simp [Model.update, h1, h2, hsel] <;>
                      first
                      | exact obsEquiv_closed _ sel sel'
                      | exact obsEquiv_refl _
              · by_cases h3 : s = "esc"
                · simp [Model.update, h1, h2, h3] <;>
                    first
                    | exact obsEquiv_closed _ sel sel'
                    | exact obsEquiv_refl _
                · by_cases h4 : s = "o"
                  · simp [Model.update, h1, h2, h3, h4] <;>
                      first
                      | exact obsEquiv_closed _ sel sel'
                      | exact obsEquiv_refl _
                  · simp [Model.update, h1, h2, h3, h4] <;>
                      first
                      | exact obsEquiv_closed _ sel sel'
                      | exact obsEquiv_refl _
        | windowSize w hh =>
            simp [Model.update] <;>
              first
              | exact obsEquiv_closed _ sel sel'
              | exact obsEquiv_refl _
        | other t =>
            simp [Model.update] <;>
              first
              | exact obsEquiv_closed _ sel sel'
              | exact obsEquiv_refl _

/-- C1 witness: the invariance theorem instantiated on two concrete
Listing sessions that differ only in the hidden selection. -/
theorem selected_meaningful_iff_detail_witness :
    Model.view idEnv sampleListing = Model.view idEnv sampleListingAlt ∧
    obsEquiv (Model.update idEnv sampleListing (Msg.key "o")).model
      (Model.update idEnv sampleListingAlt (Msg.key "o")).model ∧
    (Model.update idEnv sampleListing (Msg.key "o")).cmd =
      (Model.update idEnv sampleListingAlt (Msg.key "o")).cmd ∧
    (Model.update idEnv sampleListing (Msg.key "o")).browse =
      (Model.update idEnv sampleListingAlt (Msg.key "o")).browse ∧
    (Model.update idEnv sampleListing (Msg.key "esc")).model.showDetail = false :=
  selected_meaningful_iff_detail idEnv sampleListing sampleListingAlt (Msg.key "o")
    ⟨rfl, rfl, fun hh => Bool.noConfusion hh⟩

/-- C2 counterexample: in a Listing session over an empty entry list
the activate-selection event does not yield the Detail state; the
session is left completely unchanged, refuting the unconditional
transition law. -/
theorem enter_on_empty_list_stays_listing :
    (Model.update idEnv zeroModel (Msg.key "enter")).model.showDetail = false ∧
    (Model.update idEnv zeroModel (Msg.key "enter")).model = zeroModel := by
  decide

/-- C2 amended: from Listing, when the list widget has a highlighted
entry, activate selection yields Detail with that entry captured as
the selection; from Detail, dismiss returns to Listing and the
resulting frame no longer shows the selection. -/
theorem update_transition_law (env : Env) (m : Model) (item : RssListItem) :
    (m.showDetail = false → m.list.selectedItem = some item →
      Model.update env m (Msg.key "enter") =
        { model := { m with showDetail := true, selected := item },
          cmd := none, browse := none }) ∧
    (m.showDetail = true →
      (Model.update env m (Msg.key "esc")).model = { m with showDetail := false } ∧
      Model.view env (Model.update env m (Msg.key "esc")).model =
        { output := env.docRender (env.listView m.list), renderFailed := false }) := by
  refine ⟨fun _ hs => by simp [Model.update, hs], fun _ => ⟨by simp [Model.update], ?_⟩⟩
  simp [Model.update, Model.view]

/-- C2 witness: the amended transition law on a concrete Listing
session with a highlighted entry and on a concrete Detail session. -/
theorem update_transition_law_witness :
    Model.update idEnv sampleListing (Msg.key "enter") =
      { model := { sampleListing with showDetail := true, selected := sampleItem },
        cmd := none, browse := none } ∧
    (Model.update idEnv sampleDetail (Msg.key "esc")).model =
      { sampleDetail with showDetail := false } :=
  ⟨(update_transition_law idEnv sampleListing sampleItem).1 rfl rfl,
   ((update_transition_law idEnv sampleDetail sampleItem).2 rfl).1⟩

/-- C3: the item adapter always succeeds and produces exactly as many
entries as items, in the same order, with title, description and link
copied verbatim; the output entry type carries no other item field. -/
theorem toListItems_exact (items : List RSSItem) :
    (toListItems items).length = items.length ∧
    ∀ i : Nat, (toListItems items).get? i =
      (items.get? i).map fun it =>
        ({ title := it.Title, desc := it.Description, link := it.Link } : RssListItem) := by
  refine ⟨by simp [toListItems], fun i => ?_⟩
  simp [toListItems]

/-- C4: whenever the XML layer rejects the bytes, the feed parser
fails with that parse error and only the zero value feed accompanies
it; the unclosed-tag document is such a rejected input; and a
well-formed document merely missing optional scalar fields decodes
them to empty text without failing. -/
theorem parse_error_zero_feed (data : String) (e : String)
    (h : parseXML data = Except.error e) :
    parseFeedBytes data = (emptyRSSFeed, some e) ∧
    parseXML "<rss><channel>" = Except.error "malformed XML: unclosed tag" ∧
    parseFeedBytes "<rss><channel><title>T</title></channel></rss>" =
      ({ Title := "T", Link := "", Description := "", LastBuildDate := "",
         Items := [] }, none) :=
  ⟨by simp [parseFeedBytes, h], rfl, by decide⟩

/-- C4 witness: the parse-error contract evaluated on the concrete
unclosed-tag document. -/
theorem parse_error_zero_feed_witness :
    parseFeedBytes "<rss><channel>" =
      (emptyRSSFeed, some "malformed XML: unclosed tag") :=
  (parse_error_zero_feed "<rss><channel>" "malformed XML: unclosed tag" rfl).1

/-- C5 counterexample: on the q key the two Update functions disagree:
the served mode quits at the model level while the local mode
delegates the key to the list widget, so with the same environment and
state they produce different outcomes. -/
theorem served_local_differ_on_q :
    Model.update idEnv sampleListing (Msg.key "q") ≠
      Model.updateLocal idEnv sampleListing (Msg.key "q") := by
  decide

/-- C5 amended: the two modes share identical render logic, and
identical transition logic for every event other than the q key; on q
the served mode quits at the model level while the local mode passes
the key to the list widget. -/
theorem modes_agree_except_q (env : Env) (m : Model) (msg : Msg) :
    (msg ≠ Msg.key "q" → Model.update env m msg = Model.updateLocal env m msg) ∧
    Model.update env m (Msg.key "q") =
      { model := m, cmd := some TeaCmd.quit, browse := none } ∧
    Model.updateLocal env m (Msg.key "q") =
      { model := { m with list := (env.listUpdate m.list (Msg.key "q")).1 },
        cmd := (env.listUpdate m.list (Msg.key "q")).2, browse := none } ∧
    Model.view env m = Model.viewLocal env m := by
  refine ⟨fun hne => ?_, by simp [Model.update], by simp [Model.updateLocal], rfl⟩
  cases msg with
  | key s =>
      have hq : s ≠ "q" := fun h => hne (by rw [h])
      by_cases hc : s = "ctrl+c"
      · simp [Model.update, Model.updateLocal, hc]
      · simp [Model.update, Model.updateLocal, hc, hq]
  | windowSize w h => rfl
  | other t => rfl

/-- C5 witness: mode agreement evaluated on a concrete non-q event. -/
theorem modes_agree_except_q_witness :
    Model.update idEnv sampleListing (Msg.key "enter") =
      Model.updateLocal idEnv sampleListing (Msg.key "enter") :=
  (modes_agree_except_q idEnv sampleListing (Msg.key "enter")).1 (by decide)

/-- C6: a failed per-connection feed fetch still yields a session
model for that connection, and it has zero entries, an empty title and
a closed detail view. -/
theorem teaHandler_fetch_failure (e : String) (w h : Int) :
    teaHandler (Except.error e) w h = zeroModel ∧
    (teaHandler (Except.error e) w h).list.items = [] ∧
    (teaHandler (Except.error e) w h).list.title = "" ∧
    (teaHandler (Except.error e) w h).showDetail = false :=
  ⟨rfl, rfl, rfl, rfl⟩

/-- C7: in Listing only the list view is rendered; in Detail the list
view is followed by the modal panel over the rendered markdown, which
contains the selected title as a heading, the description, a source
link reference and the one-line key hint; on a render failure the
frame falls back to the list view alone with the failure recorded. -/
theorem view_render_contract (env : Env) (m : Model) :
    (m.showDetail = false →
      Model.view env m =
        { output := env.docRender (env.listView m.list), renderFailed := false }) ∧
    (m.showDetail = true →
      (∀ e, env.glamourRender (mkDetailMarkdown m.selected) "dark" = Except.error e →
        Model.view env m =
          { output := env.docRender (env.listView m.list), renderFailed := true }) ∧
      (∀ out, env.glamourRender (mkDetailMarkdown m.selected) "dark" = Except.ok out →
        Model.view env m =
          { output := env.docRender (env.listView m.list) ++ "\n\n" ++
              env.modalRender out, renderFailed := false })) ∧
    (∃ rest : String, mkDetailMarkdown m.selected =
      "# " ++ m.selected.title ++ "\n\n" ++ rest) ∧
    (∃ pre post : String, mkDetailMarkdown m.selected =
      pre ++ m.selected.desc ++ post) ∧
    (∃ pre post : String, mkDetailMarkdown m.selected =
      pre ++ "[Source](" ++ m.selected.link ++ ")" ++ post) ∧
    (∃ pre : String, mkDetailMarkdown m.selected =
      pre ++ "*Press 'o' to open in browser, press Esc to go back.*") := by
  refine ⟨fun hd => by simp [Model.view, hd],
    fun hd => ⟨fun e he => by simp [Model.view, hd, he],
      fun out ho => by simp [Model.view, hd, ho]⟩, ?_, ?_, ?_, ?_⟩
  · exact ⟨m.selected.desc ++ "\n\n[Source](" ++ m.selected.link ++
      ")\n\n*Press 'o' to open in browser, press Esc to go back.*",
      by simp [mkDetailMarkdown, String.append_assoc]⟩
  · exact ⟨"# " ++ m.selected.title ++ "\n\n",
      "\n\n[Source](" ++ m.selected.link ++
        ")\n\n*Press 'o' to open in browser, press Esc to go back.*",
      by simp [mkDetailMarkdown, String.append_assoc]⟩
  · refine ⟨"# " ++ m.selected.title ++ "\n\n" ++ m.selected.desc ++ "\n\n",
      "\n\n*Press 'o' to open in browser, press Esc to go back.*", ?_⟩
    have h1 : ("\n\n[Source](" : String) = "\n\n" ++ "[Source](" := by decide
    have h2 : ((")\n\n*Press 'o' to open in browser, press Esc to go back.*" : String)) =
        ")" ++ "\n\n*Press 'o' to open in browser, press Esc to go back.*" := by decide
    simp [mkDetailMarkdown, h1, h2, String.append_assoc]
  · refine ⟨"# " ++ m.selected.title ++ "\n\n" ++ m.selected.desc ++
      "\n\n[Source](" ++ m.selected.link ++ ")\n\n", ?_⟩
    have h3 : ((")\n\n*Press 'o' to open in browser, press Esc to go back.*" : String)) =
        ")\n\n" ++ "*Press 'o' to open in browser, press Esc to go back.*" := by decide
    simp [mkDetailMarkdown, h3, String.append_assoc]

/-- C7 witness: the rendering contract evaluated on a concrete Listing
session and on a concrete Detail session whose markdown renderer
succeeds. -/
theorem view_render_contract_witness :
    Model.view idEnv sampleListing =
      { output := idEnv.docRender (idEnv.listView sampleListing.list),
        renderFailed := false } ∧
    Model.view idEnv sampleDetail =
      { output := idEnv.docRender (idEnv.listView sampleDetail.list) ++ "\n\n" ++
          idEnv.modalRender "R", renderFailed := false } :=
  ⟨(view_render_contract idEnv sampleListing).1 rfl,
   ((view_render_contract idEnv sampleDetail).2.1 rfl).2 "R" rfl⟩

/-- C8: the browser launcher returns the unsupported-platform error
exactly when the host OS is none of linux, windows and darwin; the
open-in-browser event leaves the model unchanged and only spawns the
fire-and-forget launch when the detail view is open, surfacing no
launcher result; with the detail view closed it is a complete no-op. -/
theorem openBrowser_platform_contract (goos : String)
    (start : SpawnCmd → Option String) (url : String) (env : Env) (m : Model) :
    (openBrowser goos start url = some BrowserError.unsupportedPlatform ↔
      ¬(goos = "linux" ∨ goos = "windows" ∨ goos = "darwin")) ∧
    (m.showDetail = true →
      Model.update env m (Msg.key "o") =
        { model := m, cmd := none, browse := some m.selected.link }) ∧
    (m.showDetail = false →
      Model.update env m (Msg.key "o") =
        { model := m, cmd := none, browse := none }) := by
  refine ⟨?_, fun hd => by simp [Model.update, hd], fun hd => by simp [Model.update, hd]⟩
  unfold openBrowser
  split_ifs with h1 h2 h3
  · simp only [h1]
    cases start { cmd := "xdg-open", args := [url] } <;> simp
  · simp only [h2]
    cases start { cmd := "rundll32", args := ["url.dll,FileProtocolHandler", url] } <;> simp
  · simp only [h3]
    cases start { cmd := "open", args := [url] } <;> simp
  · simp [h1, h2, h3]

/-- C8 witness: the launcher contract evaluated on an unrecognized OS
and the open-in-browser event on concrete Detail and Listing
sessions. -/
theorem openBrowser_platform_contract_witness :
    openBrowser "plan9" (fun _ => none) "http://a" =
      some BrowserError.unsupportedPlatform ∧
    Model.update idEnv sampleDetail (Msg.key "o") =
      { model := sampleDetail, cmd := none, browse := some sampleItem.link } ∧
    Model.update idEnv sampleListing (Msg.key "o") =
      { model := sampleListing, cmd := none, browse := none } :=
  ⟨(openBrowser_platform_contract "plan9" (fun _ => none) "http://a" idEnv sampleDetail).1.mpr
      (by decide),
   (openBrowser_platform_contract "plan9" (fun _ => none) "http://a" idEnv sampleDetail).2.1 rfl,
   (openBrowser_platform_contract "plan9" (fun _ => none) "http://a" idEnv sampleListing).2.2 rfl⟩

/-- C9: when the selected-item lookup yields no entry, the activate
selection event returns the model unchanged with no command and no
browser launch. -/
theorem update_enter_no_selection (env : Env) (m : Model)
    (h : m.list.selectedItem = none) :
    Model.update env m (Msg.key "enter") =
      { model := m, cmd := none, browse := none } := by
  simp [Model.update, h]

/-- C9 witness: the no-selection case evaluated on the empty-list
session. -/
theorem update_enter_no_selection_witness :
    Model.update idEnv zeroModel (Msg.key "enter") =
      { model := zeroModel, cmd := none, browse := none } :=
  update_enter_no_selection idEnv zeroModel rfl

/-- C10: the activate selection event is not restricted to Listing: in
a Detail session with a highlighted entry it re-captures that entry as
the selection and the session remains in Detail with the list widget
untouched. -/
theorem update_enter_in_detail (env : Env) (m : Model) (item : RssListItem)
    (_hd : m.showDetail = true) (hs : m.list.selectedItem = some item) :
    (Model.update env m (Msg.key "enter")).model.showDetail = true ∧
    (Model.update env m (Msg.key "enter")).model.selected = item ∧
    (Model.update env m (Msg.key "enter")).model.list = m.list ∧
    (Model.update env m (Msg.key "enter")).cmd = none ∧
    (Model.update env m (Msg.key "enter")).browse = none := by
  simp [Model.update, hs]

/-- C10 witness: re-capture in Detail evaluated on a concrete Detail
session. -/
theorem update_enter_in_detail_witness :
    (Model.update idEnv sampleDetail (Msg.key "enter")).model.showDetail = true ∧
    (Model.update idEnv sampleDetail (Msg.key "enter")).model.selected = sampleItem ∧
    (Model.update idEnv sampleDetail (Msg.key "enter")).model.list = sampleDetail.list ∧
    (Model.update idEnv sampleDetail (Msg.key "enter")).cmd = none ∧
    (Model.update idEnv sampleDetail (Msg.key "enter")).browse = none :=
  update_enter_in_detail idEnv sampleDetail sampleItem rfl rfl

end PoliticsNews
